import Mathlib

/-!
Verification of the asynchronous background work bridge of a header-only
N-API binding layer (src/napi-inl.h): the `AsyncWorker` work unit, the
`Reference` persistent/weak holder, and the status-to-error translation at
the ABI boundary.  Host (node) values are modelled as `Option Nat` (`none`
is a null `napi_value`), host reference and work handles as `Nat`, and each
ABI call's outcome (`napi_status`, handles the host writes) is an explicit
input.  Observable ABI activity is returned as a trace (`List AbiCall`),
and thrown C++ `Napi::Error` exceptions as `Except Error`.
-/

/-- Result codes of the host ABI (the members of `napi_status` the embedded
code inspects: `napi_ok`, `napi_cancelled`, the `*_expected` codes switched
on by `Error::New`, `napi_pending_exception`, and a representative failure
code). -/
inductive napi_status where
  | napi_ok
  | napi_object_expected
  | napi_string_expected
  | napi_boolean_expected
  | napi_number_expected
  | napi_generic_failure
  | napi_pending_exception
  | napi_cancelled
deriving DecidableEq

/-- The `napi_extended_error_info` the host keeps per environment, as read
by `Error::New(env)` (src/napi-inl.h:1359-1360): the last error message
(null allowed) and the last error code. -/
structure napi_extended_error_info where
  error_message : Option String
  error_code : napi_status
deriving DecidableEq

/-- One observable call into the host ABI.  Traces of these record what the
embedded wrapper functions do to the host. -/
inductive AbiCall where
  | napi_create_reference (value : Nat) (initialRefcount : Nat)
  | napi_delete_reference (ref : Nat)
  | napi_create_object
  | napi_create_async_work
  | napi_queue_async_work
  | napi_cancel_async_work
  | napi_delete_async_work (work : Nat)
deriving DecidableEq

namespace Napi

/-- Kind of host error object built by `Error::New` (src/napi-inl.h:1380-1390:
`napi_create_type_error` for the `*_expected` codes, `napi_create_error`
otherwise). -/
inductive ErrorKind where
  | plainError
  | typeError
deriving DecidableEq

/-- A host error value as the wrapper observes it: its kind and its message
text.  Stands for the `Napi::Error` C++ exception object. -/
structure Error where
  kind : ErrorKind
  message : String
deriving DecidableEq

/-- Error::New(env) (src/napi-inl.h:1355-1397): reads the environment's last
error info; when the last code is `napi_pending_exception` the pending host
exception (`pendingException`, from `napi_get_and_clear_last_exception`) is
the error; otherwise an error is created whose message is the host's own
`error_message` or the fallback text, a type error for the `*_expected`
codes and a plain error otherwise. -/
def Error.New (info : napi_extended_error_info) (pendingException : Error) : Error :=
  if info.error_code = napi_status.napi_pending_exception then
    pendingException
  else
    let msg := info.error_message.getD ("Error in native callback")
    match info.error_code with
    | napi_status.napi_object_expected => { kind := ErrorKind.typeError, message := msg }
    | napi_status.napi_string_expected => { kind := ErrorKind.typeError, message := msg }
    | napi_status.napi_boolean_expected => { kind := ErrorKind.typeError, message := msg }
    | napi_status.napi_number_expected => { kind := ErrorKind.typeError, message := msg }
    | _ => { kind := ErrorKind.plainError, message := msg }

/-- State of a `Reference<T>` holder (napi.h declaration; fields as the
definitions in src/napi-inl.h:1537-1653 use them): the environment, the
opaque `napi_ref` handle (`none` when empty), and the destruction
suppression flag. -/
structure Reference where
  _env : Option Nat
  _ref : Option Nat
  _suppressDestruct : Bool
deriving DecidableEq

/-- Reference<T>::New(value, initialRefcount) (src/napi-inl.h:1520-1534):
a null value yields an empty holder with no ABI call; otherwise
`napi_create_reference` is called with `initialRefcount`; on a non-ok
status the translated error is thrown.  `createStatus` is the status the
host returns and `newRef` the handle it writes; the pair returned is
(result, trace of ABI calls made). -/
def Reference.New (env : Nat) (value : Option Nat) (initialRefcount : Nat)
    (createStatus : napi_status) (newRef : Nat)
    (info : napi_extended_error_info) (pend : Error) :
    Except Error Reference × List AbiCall :=
  match value with
  | none => (Except.ok { _env := some env, _ref := none, _suppressDestruct := false }, [])
  | some v =>
      if createStatus = napi_status.napi_ok then
        (Except.ok { _env := some env, _ref := some newRef, _suppressDestruct := false },
         [AbiCall.napi_create_reference v initialRefcount])
      else
        (Except.error (Error.New info pend),
         [AbiCall.napi_create_reference v initialRefcount])

/-- Napi::Weak (src/napi-inl.h:1656-1666): `Reference<T>::New(value, 0)`. -/
def Weak (env : Nat) (value : Option Nat) (createStatus : napi_status) (newRef : Nat)
    (info : napi_extended_error_info) (pend : Error) :
    Except Error Reference × List AbiCall :=
  Reference.New env value 0 createStatus newRef info pend

/-- Napi::Persistent (src/napi-inl.h:1668-1679): `Reference<T>::New(value, 1)`. -/
def Persistent (env : Nat) (value : Option Nat) (createStatus : napi_status) (newRef : Nat)
    (info : napi_extended_error_info) (pend : Error) :
    Except Error Reference × List AbiCall :=
  Reference.New env value 1 createStatus newRef info pend

/-- Reference<T>::~Reference (src/napi-inl.h:1546-1555) as the trace of ABI
calls it makes: a non-empty holder calls `napi_delete_reference` unless
`_suppressDestruct` is set. -/
def Reference.destruct (r : Reference) : List AbiCall :=
  match r._ref with
  | none => []
  | some h => if r._suppressDestruct then [] else [AbiCall.napi_delete_reference h]

/-- Reference<T>::SuppressDestruct (src/napi-inl.h:1650-1653). -/
def Reference.SuppressDestruct (r : Reference) : Reference :=
  { r with _suppressDestruct := true }

/-- Reference<T> move constructor (src/napi-inl.h:1557-1563): copies `_env`
and `_ref` and nulls them in the source.  (`_suppressDestruct` is not
copied; the new holder carries the declaration's default, false.)  Returns
(the new holder, the moved-from holder). -/
def Reference.moveCtor (other : Reference) : Reference × Reference :=
  ({ _env := other._env, _ref := other._ref, _suppressDestruct := false },
   { other with _env := none, _ref := none })

/-- Reference<T> move assignment (src/napi-inl.h:1565-1573): `Reset()` first
(deleting the target's own reference, the trace returned), then takes the
source's fields, nulling them in the source.  Returns
(the assigned target, the moved-from source, the trace). -/
def Reference.moveAssign (self other : Reference) : Reference × Reference × List AbiCall :=
  ({ self with _env := other._env, _ref := other._ref },
   { other with _env := none, _ref := none },
   match self._ref with
   | none => []
   | some h => [AbiCall.napi_delete_reference h])

/-- Reference<T>::Value() (src/napi-inl.h:1601-1611): null for an empty
holder, otherwise the value `napi_get_reference_value` returns
(`hostVal`, an explicit input from the host). -/
def Reference.Value (r : Reference) (hostVal : Option Nat) : Option Nat :=
  match r._ref with
  | none => none
  | some _ => hostVal

/-- The host call `Function::MakeCallback` performs (src/napi-inl.h:1198-1205,
`napi_make_callback`): the callee, the receiver it is invoked against, and
the argument values. -/
structure HostCall where
  func : Option Nat
  recv : Option Nat
  args : List (Option Nat)
deriving DecidableEq

/-- Function::MakeCallback(recv, args) (src/napi-inl.h:1198-1205): performs
`napi_make_callback` with the wrapped function value (`funcVal`), the given
receiver and arguments. -/
def Function.MakeCallback (funcVal : Option Nat) (recv : Option Nat)
    (args : List (Option Nat)) : HostCall :=
  { func := funcVal, recv := recv, args := args }

/-- FunctionReference::MakeCallback (src/napi-inl.h:1861-1865): calls the
referenced function (`Value()`, the host returning `hostVal` for the
reference) through `Function::MakeCallback` inside an escapable scope. -/
def FunctionReference.MakeCallback (r : Reference) (hostVal : Option Nat)
    (recv : Option Nat) (args : List (Option Nat)) : HostCall :=
  Function.MakeCallback (r.Value hostVal) recv args

/-- State of an `AsyncWorker` (napi.h declaration; fields as the definitions
in src/napi-inl.h:2568-2673 use them): the environment handle, the opaque
`napi_async_work` entry, the persistent receiver and callback references,
and the captured error message (empty = no error). -/
structure AsyncWorker where
  _env : Option Nat
  _work : Option Nat
  _receiver : Reference
  _callback : Reference
  _error : String
deriving DecidableEq

/-- Host responses consumed by the AsyncWorker constructors: the `napi_value`
handles of the receiver and callback arguments, the statuses and handles
each ABI call yields, and the last-error info used by `Error::New`. -/
structure AsyncWorkerCtorHost where
  receiver : Option Nat
  callback : Option Nat
  receiverRefStatus : napi_status
  receiverRefHandle : Nat
  callbackRefStatus : napi_status
  callbackRefHandle : Nat
  createWorkStatus : napi_status
  workHandle : Nat
  info : napi_extended_error_info
  pending : Error

/-- AsyncWorker::AsyncWorker(receiver, callback) (src/napi-inl.h:2572-2579):
captures `Napi::Persistent` references to the receiver and the callback in
member-initialization order, then registers the unit with
`napi_create_async_work`; a non-ok status at any of these ABI calls throws
the translated error.  Returns (result, trace of ABI calls made). -/
def AsyncWorker.construct (env : Nat) (h : AsyncWorkerCtorHost) :
    Except Error AsyncWorker × List AbiCall :=
  match Persistent env h.receiver h.receiverRefStatus h.receiverRefHandle h.info h.pending with
  | (Except.error e, calls) => (Except.error e, calls)
  | (Except.ok recvRef, recvCalls) =>
    match Persistent env h.callback h.callbackRefStatus h.callbackRefHandle h.info h.pending with
    | (Except.error e, cbCalls) => (Except.error e, recvCalls ++ cbCalls)
    | (Except.ok cbRef, cbCalls) =>
      if h.createWorkStatus = napi_status.napi_ok then
        (Except.ok { _env := some env, _work := some h.workHandle,
                     _receiver := recvRef, _callback := cbRef, _error := "" },
         recvCalls ++ cbCalls ++ [AbiCall.napi_create_async_work])
      else
        (Except.error (Error.New h.info h.pending),
         recvCalls ++ cbCalls ++ [AbiCall.napi_create_async_work])

/-- AsyncWorker::AsyncWorker(callback) (src/napi-inl.h:2568-2570): delegates
to the two-argument form with `Object::New(callback.Env())` as the
receiver — a freshly created empty object (`napi_create_object` returning
the fresh handle `freshObj`). -/
def AsyncWorker.construct1 (env : Nat) (freshObj : Nat) (h : AsyncWorkerCtorHost) :
    Except Error AsyncWorker × List AbiCall :=
  let r := AsyncWorker.construct env { h with receiver := some freshObj }
  (r.1, AbiCall.napi_create_object :: r.2)

/-- AsyncWorker::~AsyncWorker (src/napi-inl.h:2581-2586) as the trace of
work-queue teardown it makes: `napi_delete_async_work` when `_work` is
non-null, nothing otherwise.  (Member reference destructors run after;
see `AsyncWorker.destruct`.) -/
def AsyncWorker.destructWorkCalls (u : AsyncWorker) : List AbiCall :=
  match u._work with
  | none => []
  | some w => [AbiCall.napi_delete_async_work w]

/-- Full destruction trace of an AsyncWorker: the destructor body
(src/napi-inl.h:2581-2586) followed by the member `Reference` destructors
(reverse declaration order: `_callback`, then `_receiver`). -/
def AsyncWorker.destruct (u : AsyncWorker) : List AbiCall :=
  u.destructWorkCalls ++ u._callback.destruct ++ u._receiver.destruct

/-- AsyncWorker move constructor (src/napi-inl.h:2588-2596): takes `_env`
and `_work` and nulls them in the source; moves the references and the
error string.  (A moved-from `std::string` is left unspecified; modelled
as emptied.)  Returns (the new worker, the moved-from worker). -/
def AsyncWorker.moveCtor (other : AsyncWorker) : AsyncWorker × AsyncWorker :=
  ({ _env := other._env, _work := other._work,
     _receiver := (Reference.moveCtor other._receiver).1,
     _callback := (Reference.moveCtor other._callback).1,
     _error := other._error },
   { _env := none, _work := none,
     _receiver := (Reference.moveCtor other._receiver).2,
     _callback := (Reference.moveCtor other._callback).2,
     _error := "" })

/-- AsyncWorker move assignment (src/napi-inl.h:2598-2607): same field
transfer as the move constructor, through `Reference` move assignment for
the members (whose `Reset` produces the trace).  The target's old `_work`
is overwritten without teardown.  Returns
(the assigned target, the moved-from source, the trace). -/
def AsyncWorker.moveAssign (self other : AsyncWorker) : AsyncWorker × AsyncWorker × List AbiCall :=
  ({ _env := other._env, _work := other._work,
     _receiver := (Reference.moveAssign self._receiver other._receiver).1,
     _callback := (Reference.moveAssign self._callback other._callback).1,
     _error := other._error },
   { _env := none, _work := none,
     _receiver := (Reference.moveAssign self._receiver other._receiver).2.1,
     _callback := (Reference.moveAssign self._callback other._callback).2.1,
     _error := "" },
   (Reference.moveAssign self._receiver other._receiver).2.2 ++
     (Reference.moveAssign self._callback other._callback).2.2)

/-- AsyncWorker::Queue (src/napi-inl.h:2617-2620): `napi_queue_async_work`
(returning `st`); a non-ok status throws the translated error. -/
def AsyncWorker.Queue (st : napi_status) (info : napi_extended_error_info)
    (pend : Error) : Except Error Unit :=
  if st ≠ napi_status.napi_ok then Except.error (Error.New info pend) else Except.ok ()

/-- AsyncWorker::Cancel (src/napi-inl.h:2622-2625): `napi_cancel_async_work`
(returning `st`); a non-ok status throws the translated error. -/
def AsyncWorker.Cancel (st : napi_status) (info : napi_extended_error_info)
    (pend : Error) : Except Error Unit :=
  if st ≠ napi_status.napi_ok then Except.error (Error.New info pend) else Except.ok ()

/-- AsyncWorker::SetError (src/napi-inl.h:2643-2645). -/
def AsyncWorker.SetError (u : AsyncWorker) (error : String) : AsyncWorker :=
  { u with _error := error }

/-- Outcome of the user-supplied `Execute` body on the worker thread: normal
return, or a thrown native exception derived from `std::exception` carrying
its `what()` text. -/
inductive ExecOutcome where
  | success
  | raises (what : String)
deriving DecidableEq

/-- AsyncWorker::OnExecute (src/napi-inl.h:2647-2654): runs `Execute`; a
thrown `std::exception` is caught and stored with `SetError(e.what())`.
Returns the unit's state afterwards. -/
def AsyncWorker.OnExecute (u : AsyncWorker) (outcome : ExecOutcome) : AsyncWorker :=
  match outcome with
  | ExecOutcome.success => u
  | ExecOutcome.raises what => u.SetError what

/-- One observable step of the completion dispatch
(`AsyncWorker::OnWorkComplete`). -/
inductive Event where
  | open_scope
  | call_OnOK
  | make_error (message : String)
  | call_OnError (message : String)
  | throw_js (message : String)
  | close_scope
  | delete_self
deriving DecidableEq

/-- AsyncWorker::OnWorkComplete (src/napi-inl.h:2656-2673) as the ordered
trace of its observable steps: unless the host reports `napi_cancelled`, a
`HandleScope` is opened, then `OnOK` is called when `_error.size() == 0`
and otherwise a host error is built from `_error` (`Error::New`) and
`OnError` is called with it; a `Napi::Error` thrown by either handler is
caught and rethrown via `ThrowAsJavaScriptException` (`throw_js`); the
scope closes at the end of the block; finally `delete self` runs
unconditionally.  The virtual handlers may throw a `Napi::Error` (the
default implementations' `MakeCallback` does when the host call fails):
`onOkRaises` / `onErrorRaises` give that error's message, `none` when the
handler returns normally. -/
def AsyncWorker.OnWorkComplete (u : AsyncWorker) (status : napi_status)
    (onOkRaises : Option String) (onErrorRaises : Option String) : List Event :=
  (if status ≠ napi_status.napi_cancelled then
    Event.open_scope ::
      ((if u._error.length = 0 then
          Event.call_OnOK ::
            (match onOkRaises with
             | none => []
             | some m => [Event.throw_js m])
        else
          Event.make_error u._error :: Event.call_OnError u._error ::
            (match onErrorRaises with
             | none => []
             | some m => [Event.throw_js m])) ++
       [Event.close_scope])
  else []) ++ [Event.delete_self]

/-- AsyncWorker::OnOK (src/napi-inl.h:2635-2637, the default): invokes the
callback reference against the receiver's value with an empty argument
list.  `cbVal` / `recvVal` are what the host returns when the two
references are resolved. -/
def AsyncWorker.OnOK (u : AsyncWorker) (cbVal recvVal : Option Nat) : HostCall :=
  FunctionReference.MakeCallback u._callback cbVal (u._receiver.Value recvVal) []

/-- AsyncWorker::OnError (src/napi-inl.h:2639-2641, the default): invokes the
callback reference against the receiver's value with the error's value as
the sole argument. -/
def AsyncWorker.OnError (u : AsyncWorker) (cbVal recvVal : Option Nat)
    (errVal : Option Nat) : HostCall :=
  FunctionReference.MakeCallback u._callback cbVal (u._receiver.Value recvVal) [errVal]

/-- Whether an event is an `OnError` invocation. -/
def Event.isOnError : Event → Bool
  | Event.call_OnError _ => true
  | _ => false

/-- Whether an event is an `OnOK` invocation. -/
def Event.isOnOK : Event → Bool
  | Event.call_OnOK => true
  | _ => false

/-- Number of `OnError` invocations in a completion trace. -/
def countOnError (l : List Event) : Nat := l.countP Event.isOnError

/-- Number of `OnOK` invocations in a completion trace. -/
def countOnOK (l : List Event) : Nat := l.countP Event.isOnOK

/-- Whether a wrapper operation completed without throwing. -/
def completesNormally {α : Type} : Except Error α → Bool
  | Except.ok _ => true
  | Except.error _ => false

/-- One move among a family of workers: worker `j` is move-assigned (or, for
a fresh slot, move-constructed) from worker `i`; `i`'s `_env` and `_work`
are nulled (src/napi-inl.h:2590, 2592, 2600, 2602). -/
def moveStep {n : Nat} (f : Fin n → AsyncWorker) (i j : Fin n) : Fin n → AsyncWorker :=
  Function.update (Function.update f j (AsyncWorker.moveAssign (f j) (f i)).1) i
    (AsyncWorker.moveAssign (f j) (f i)).2.1

/-- Number of workers of the family whose `_work` field holds the
work-queue entry `w`. -/
def countHolders {n : Nat} (w : Nat) (f : Fin n → AsyncWorker) : Nat :=
  (Finset.univ.filter (fun k => (f k)._work = some w)).card

/-- Apply a sequence of moves, left to right. -/
def applyMoves {n : Nat} (f : Fin n → AsyncWorker) (moves : List (Fin n × Fin n)) :
    Fin n → AsyncWorker :=
  moves.foldl (fun g p => moveStep g p.1 p.2) f

/-- Total number of `napi_delete_async_work w` calls made when every worker
of the family is destroyed. -/
def totalWorkDeletes {n : Nat} (w : Nat) (f : Fin n → AsyncWorker) : Nat :=
  ∑ k, (AsyncWorker.destructWorkCalls (f k)).count (AbiCall.napi_delete_async_work w)

/-- A sample non-empty receiver reference (handle 10). -/
def sampleReceiverRef : Reference :=
  { _env := some 0, _ref := some 10, _suppressDestruct := false }

/-- A sample non-empty callback reference (handle 11). -/
def sampleCallbackRef : Reference :=
  { _env := some 0, _ref := some 11, _suppressDestruct := false }

/-- A sample worker holding work entry 7 whose off-thread phase captured the
error message "boom". -/
def sampleWorker : AsyncWorker :=
  { _env := some 0, _work := some 7, _receiver := sampleReceiverRef,
    _callback := sampleCallbackRef, _error := ("boom") }

/-- A sample worker holding work entry 7 with no captured error. -/
def sampleOkWorker : AsyncWorker :=
  { sampleWorker with _error := ("") }

/-- A sample worker in moved-from state: no environment, no work entry. -/
def movedOutWorker : AsyncWorker :=
  { _env := none, _work := none,
    _receiver := { _env := none, _ref := none, _suppressDestruct := false },
    _callback := { _env := none, _ref := none, _suppressDestruct := false },
    _error := ("") }

/-- Sample last-error info: a generic failure with a host-provided message. -/
def sampleInfo : napi_extended_error_info :=
  { error_message := some ("queue failure"), error_code := napi_status.napi_generic_failure }

/-- A sample pending host exception. -/
def samplePending : Error :=
  { kind := ErrorKind.plainError, message := ("pending") }

/-- Sample host responses for a fully successful construction. -/
def sampleCtorHost : AsyncWorkerCtorHost :=
  { receiver := some 20, callback := some 21,
    receiverRefStatus := napi_status.napi_ok, receiverRefHandle := 10,
    callbackRefStatus := napi_status.napi_ok, callbackRefHandle := 11,
    createWorkStatus := napi_status.napi_ok, workHandle := 7,
    info := sampleInfo, pending := samplePending }

/-- A sample family of two workers: slot 0 holds work entry 7, slot 1 is in
moved-from state. -/
def sampleFamily : Fin 2 → AsyncWorker :=
  fun k => if k = 0 then sampleWorker else movedOutWorker

/-- A string has length 0 exactly when it is the empty string (the shape of
the `_error.size() == 0` test of src/napi-inl.h:2662). -/
theorem string_length_zero_iff (s : String) : s.length = 0 ↔ s = ("") := by
  constructor
  · intro h
    obtain ⟨data⟩ := s
    cases data with
    | nil => rfl
    | cons a l => simp [String.length] at h
  · intro h
    subst h
    rfl

/-- The last element of a trace that ends in a fixed event. -/
theorem getLast?_append_singleton {α : Type} (l : List α) (a : α) :
    (l ++ [a]).getLast? = some a := by
  rw [List.getLast?_append_cons]
  rfl

/-- C3: when the host reports cancellation status to the completion
dispatch, neither `OnOK` nor `OnError` is invoked for the unit, and the
unit is still destroyed: the trace is exactly the unconditional
`delete self`. -/
theorem C3_cancelled_skips_handlers (u : AsyncWorker) (okR errR : Option String) :
    AsyncWorker.OnWorkComplete u napi_status.napi_cancelled okR errR = [Event.delete_self] ∧
    countOnOK (AsyncWorker.OnWorkComplete u napi_status.napi_cancelled okR errR) = 0 ∧
    countOnError (AsyncWorker.OnWorkComplete u napi_status.napi_cancelled okR errR) = 0 ∧
    Event.delete_self ∈ AsyncWorker.OnWorkComplete u napi_status.napi_cancelled okR errR := by
  have h : AsyncWorker.OnWorkComplete u napi_status.napi_cancelled okR errR =
      [Event.delete_self] := by
    unfold AsyncWorker.OnWorkComplete
    simp
  refine ⟨h, ?_, ?_, ?_⟩ <;> rw [h]
  · rfl
  · rfl
  · simp

/-- C5: the default `OnOK` invokes the completion callback against the
receiver with zero arguments; the default `OnError` invokes it with the
error value as the sole argument. -/
theorem C5_default_handlers (u : AsyncWorker) (cbVal recvVal errVal : Option Nat) :
    AsyncWorker.OnOK u cbVal recvVal =
      { func := u._callback.Value cbVal, recv := u._receiver.Value recvVal, args := [] } ∧
    AsyncWorker.OnError u cbVal recvVal errVal =
      { func := u._callback.Value cbVal, recv := u._receiver.Value recvVal,
        args := [errVal] } :=
  ⟨rfl, rfl⟩

/-- C8 counterexample: at the null (empty) value the claim as stated fails —
`Weak` and `Persistent` register no host reference at all:
`Reference<T>::New` (src/napi-inl.h:1525-1527) returns an empty holder
without calling `napi_create_reference`. -/
theorem C8_null_value_counterexample :
    (Weak 0 none napi_status.napi_ok 3 sampleInfo samplePending).2 = [] ∧
    (Persistent 0 none napi_status.napi_ok 3 sampleInfo samplePending).2 = [] :=
  ⟨rfl, rfl⟩

/-- C8 (amended): for every value with a non-null underlying handle,
`Weak` registers a host reference with initial reference count 0 and
`Persistent` registers one with initial reference count 1. -/
theorem C8_weak_persistent_refcounts (env v newRef : Nat) (st : napi_status)
    (info : napi_extended_error_info) (pend : Error) :
    (Weak env (some v) st newRef info pend).2 = [AbiCall.napi_create_reference v 0] ∧
    (Persistent env (some v) st newRef info pend).2 = [AbiCall.napi_create_reference v 1] := by
  unfold Weak Persistent Reference.New
  by_cases hst : st = napi_status.napi_ok <;> simp [hst]

/-- C9: a non-empty reference holder's destructor releases the underlying
reference handle, unless `SuppressDestruct` has been called on it
beforehand, in which case destruction releases nothing. -/
theorem C9_destruct_unless_suppressed (r : Reference) (h : Nat) (hr : r._ref = some h) :
    (r._suppressDestruct = false →
      Reference.destruct r = [AbiCall.napi_delete_reference h]) ∧
    Reference.destruct (Reference.SuppressDestruct r) = [] := by
  constructor
  · intro hs
    simp [Reference.destruct, hr, hs]
  · simp [Reference.destruct, Reference.SuppressDestruct, hr]

/-- Witness for C9 at the sample receiver reference (handle 10). -/
theorem C9_destruct_unless_suppressed_witness :
    (sampleReceiverRef._suppressDestruct = false →
      Reference.destruct sampleReceiverRef = [AbiCall.napi_delete_reference 10]) ∧
    Reference.destruct (Reference.SuppressDestruct sampleReceiverRef) = [] :=
  C9_destruct_unless_suppressed sampleReceiverRef 10 rfl

/-- C1: for every non-cancelled completion, the dispatch opens a handle
scope first, calls `OnOK` iff the captured error message is empty, on a
non-empty message constructs a host error value from it and calls `OnError`
with it, and in either case ends by destroying the unit unconditionally. -/
theorem C1_completion_dispatch (u : AsyncWorker) (status : napi_status)
    (okR errR : Option String) (hs : status ≠ napi_status.napi_cancelled) :
    (AsyncWorker.OnWorkComplete u status okR errR).head? = some Event.open_scope ∧
    (Event.call_OnOK ∈ AsyncWorker.OnWorkComplete u status okR errR ↔ u._error = ("")) ∧
    (u._error ≠ ("") →
      Event.make_error u._error ∈ AsyncWorker.OnWorkComplete u status okR errR ∧
      Event.call_OnError u._error ∈ AsyncWorker.OnWorkComplete u status okR errR) ∧
    (AsyncWorker.OnWorkComplete u status okR errR).getLast? = some Event.delete_self := by
  refine ⟨?_, ?_, ?_, getLast?_append_singleton _ _⟩
  · unfold AsyncWorker.OnWorkComplete
    by_cases he : u._error.length = 0 <;>
      rcases okR with _ | m <;> rcases errR with _ | m2 <;> simp [hs, he]
  · unfold AsyncWorker.OnWorkComplete
    by_cases he : u._error = ("")
    · have hl : u._error.length = 0 := (string_length_zero_iff u._error).mpr he
      rcases okR with _ | m <;> simp [hs, hl, he]
    · have hl : ¬ u._error.length = 0 := fun h0 =>
        he ((string_length_zero_iff u._error).mp h0)
      rcases errR with _ | m2 <;> simp [hs, hl, he]
  · intro he
    have hl : ¬ u._error.length = 0 := fun h0 =>
      he ((string_length_zero_iff u._error).mp h0)
    unfold AsyncWorker.OnWorkComplete
    rcases errR with _ | m2 <;> simp [hs, hl]

/-- Witness for C1 at the sample worker (captured error "boom") completed
with a non-cancelled status. -/
theorem C1_completion_dispatch_witness :
    (AsyncWorker.OnWorkComplete sampleWorker napi_status.napi_ok none none).head? =
      some Event.open_scope ∧
    (Event.call_OnOK ∈ AsyncWorker.OnWorkComplete sampleWorker napi_status.napi_ok none none ↔
      sampleWorker._error = ("")) ∧
    (sampleWorker._error ≠ ("") →
      Event.make_error sampleWorker._error ∈
        AsyncWorker.OnWorkComplete sampleWorker napi_status.napi_ok none none ∧
      Event.call_OnError sampleWorker._error ∈
        AsyncWorker.OnWorkComplete sampleWorker napi_status.napi_ok none none) ∧
    (AsyncWorker.OnWorkComplete sampleWorker napi_status.napi_ok none none).getLast? =
      some Event.delete_self :=
  C1_completion_dispatch sampleWorker napi_status.napi_ok none none (by decide)

/-- C2 counterexample: a unit whose `Execute` raises an exception with empty
`what()` text.  The text is captured, but the completion dispatch then sees
`_error.size() == 0` (src/napi-inl.h:2662) and calls `OnOK`; `OnError`
never runs, contrary to the claim as stated. -/
theorem C2_empty_message_counterexample :
    Event.call_OnOK ∈
      AsyncWorker.OnWorkComplete (AsyncWorker.OnExecute sampleOkWorker (ExecOutcome.raises (("")))) napi_status.napi_ok none none ∧
    countOnError
      (AsyncWorker.OnWorkComplete (AsyncWorker.OnExecute sampleOkWorker (ExecOutcome.raises (("")))) napi_status.napi_ok none none) = 0 ∧
    countOnOK
      (AsyncWorker.OnWorkComplete (AsyncWorker.OnExecute sampleOkWorker (ExecOutcome.raises (("")))) napi_status.napi_ok none none) = 1 := by
  decide

/-- C2 (amended): for every unit whose `Execute` raises a native exception
with non-empty message text, the text is captured as the unit's error
message, and on its (non-cancelled) completion `OnError` runs exactly once,
with that non-empty message, while `OnOK` never runs.  (An exception whose
message text is empty is instead treated as success — see the
counterexample.) -/
theorem C2_execute_raises (u : AsyncWorker) (what : String) (status : napi_status)
    (okR errR : Option String) (hw : what ≠ ("")) (hs : status ≠ napi_status.napi_cancelled) :
    (AsyncWorker.OnExecute u (ExecOutcome.raises what))._error = what ∧
    countOnError (AsyncWorker.OnWorkComplete
      (AsyncWorker.OnExecute u (ExecOutcome.raises what)) status okR errR) = 1 ∧
    Event.call_OnError what ∈ AsyncWorker.OnWorkComplete
      (AsyncWorker.OnExecute u (ExecOutcome.raises what)) status okR errR ∧
    countOnOK (AsyncWorker.OnWorkComplete
      (AsyncWorker.OnExecute u (ExecOutcome.raises what)) status okR errR) = 0 := by
  have hu : (AsyncWorker.OnExecute u (ExecOutcome.raises what))._error = what := rfl
  have hl : ¬ what.length = 0 := fun h0 => hw ((string_length_zero_iff what).mp h0)
  refine ⟨hu, ?_, ?_, ?_⟩ <;>
    · unfold AsyncWorker.OnWorkComplete
      rcases errR with _ | m2 <;>
        simp [hs, hl, hu, countOnError, countOnOK, Event.isOnError, Event.isOnOK]

/-- Witness for C2 (amended) at the spec's scenario message
"disk read failed". -/
theorem C2_execute_raises_witness :
    (AsyncWorker.OnExecute sampleOkWorker (ExecOutcome.raises (("disk read failed"))))._error = ("disk read failed") ∧
    countOnError (AsyncWorker.OnWorkComplete
      (AsyncWorker.OnExecute sampleOkWorker (ExecOutcome.raises (("disk read failed")))) napi_status.napi_ok none none) = 1 ∧
    Event.call_OnError ("disk read failed") ∈ AsyncWorker.OnWorkComplete
      (AsyncWorker.OnExecute sampleOkWorker (ExecOutcome.raises (("disk read failed")))) napi_status.napi_ok none none ∧
    countOnOK (AsyncWorker.OnWorkComplete
      (AsyncWorker.OnExecute sampleOkWorker (ExecOutcome.raises (("disk read failed")))) napi_status.napi_ok none none) = 0 :=
  C2_execute_raises sampleOkWorker ("disk read failed") napi_status.napi_ok none none
    (by decide) (by decide)

/-- C7: a `Napi::Error` raised while `OnOK` or `OnError` executes inside the
completion dispatch is caught at that boundary and rethrown as a
script-visible JavaScript exception, and the unit is still destroyed
afterwards. -/
theorem C7_handler_error_rethrown (u : AsyncWorker) (status : napi_status)
    (okR errR : Option String) (m : String) (hs : status ≠ napi_status.napi_cancelled)
    (hm : (u._error = ("") ∧ okR = some m) ∨ (u._error ≠ ("") ∧ errR = some m)) :
    Event.throw_js m ∈ AsyncWorker.OnWorkComplete u status okR errR ∧
    (AsyncWorker.OnWorkComplete u status okR errR).getLast? = some Event.delete_self := by
  refine ⟨?_, getLast?_append_singleton _ _⟩
  unfold AsyncWorker.OnWorkComplete
  rcases hm with ⟨he, hok⟩ | ⟨he, herr⟩
  · have hl : u._error.length = 0 := (string_length_zero_iff u._error).mpr he
    subst hok
    simp [hs, hl]
  · have hl : ¬ u._error.length = 0 := fun h0 =>
      he ((string_length_zero_iff u._error).mp h0)
    subst herr
    simp [hs, hl]

/-- Witness for C7: the sample no-error worker whose `OnOK` throws a
`Napi::Error` with message "cb failed". -/
theorem C7_handler_error_rethrown_witness :
    Event.throw_js ("cb failed") ∈
      AsyncWorker.OnWorkComplete sampleOkWorker napi_status.napi_ok (some ("cb failed")) none ∧
    (AsyncWorker.OnWorkComplete sampleOkWorker napi_status.napi_ok (some ("cb failed")) none).getLast? =
      some Event.delete_self :=
  C7_handler_error_rethrown sampleOkWorker napi_status.napi_ok (some ("cb failed")) none
    ("cb failed") (by decide) (Or.inl ⟨rfl, rfl⟩)

/-- C4: the constructor (registration), `Queue` and `Cancel` complete
normally exactly when every host ABI call they perform returns
`napi_ok`, and otherwise throw the translated error; outside the
pending-exception path the translated error carries the host's own error
message or the generic fallback text. -/
theorem C4_abi_rejection (env : Nat) (h : AsyncWorkerCtorHost) (stq stc : napi_status)
    (info : napi_extended_error_info) (pend : Error) :
    (completesNormally (AsyncWorker.construct env h).1 = true ↔
       ((h.receiver ≠ none → h.receiverRefStatus = napi_status.napi_ok) ∧
        (h.callback ≠ none → h.callbackRefStatus = napi_status.napi_ok) ∧
        h.createWorkStatus = napi_status.napi_ok)) ∧
    (completesNormally (AsyncWorker.Queue stq info pend) = true ↔
       stq = napi_status.napi_ok) ∧
    (completesNormally (AsyncWorker.Cancel stc info pend) = true ↔
       stc = napi_status.napi_ok) ∧
    (stq ≠ napi_status.napi_ok →
      AsyncWorker.Queue stq info pend = Except.error (Error.New info pend)) ∧
    (stc ≠ napi_status.napi_ok →
      AsyncWorker.Cancel stc info pend = Except.error (Error.New info pend)) ∧
    (info.error_code ≠ napi_status.napi_pending_exception →
      (Error.New info pend).message = info.error_message.getD ("Error in native callback")) := by
  refine ⟨?_, ?_, ?_, ?_, ?_, ?_⟩
  · rcases hre : h.receiver with _ | rv <;> rcases hcb : h.callback with _ | cv <;>
      by_cases h1 : h.receiverRefStatus = napi_status.napi_ok <;>
      by_cases h2 : h.callbackRefStatus = napi_status.napi_ok <;>
      by_cases h3 : h.createWorkStatus = napi_status.napi_ok <;>
      simp [AsyncWorker.construct, Persistent, Reference.New, completesNormally,
        hre, hcb, h1, h2, h3]
  · by_cases hq : stq = napi_status.napi_ok <;>
      simp [AsyncWorker.Queue, completesNormally, hq]
  · by_cases hc : stc = napi_status.napi_ok <;>
      simp [AsyncWorker.Cancel, completesNormally, hc]
  · intro hq
    simp [AsyncWorker.Queue, hq]
  · intro hc
    simp [AsyncWorker.Cancel, hc]
  · intro hp
    simp [Error.New, hp]
    rcases info with ⟨msg, code⟩
    rcases code <;> simp_all

/-- C6: both constructor forms capture persistent (strong, initial refcount
1) references to the receiver and to the completion callback; the
single-argument form uses the freshly created empty object
(`Object::New`) as its receiver. -/
theorem C6_persistent_captures (env freshObj rv cv : Nat) (h : AsyncWorkerCtorHost)
    (hr : h.receiver = some rv) (hc : h.callback = some cv)
    (h1 : h.receiverRefStatus = napi_status.napi_ok)
    (h2 : h.callbackRefStatus = napi_status.napi_ok)
    (h3 : h.createWorkStatus = napi_status.napi_ok) :
    (AsyncWorker.construct env h).2 =
      [AbiCall.napi_create_reference rv 1, AbiCall.napi_create_reference cv 1,
       AbiCall.napi_create_async_work] ∧
    (AsyncWorker.construct1 env freshObj h).2 =
      [AbiCall.napi_create_object, AbiCall.napi_create_reference freshObj 1,
       AbiCall.napi_create_reference cv 1, AbiCall.napi_create_async_work] ∧
    (AsyncWorker.construct env h).1 =
      Except.ok { _env := some env, _work := some h.workHandle,
                  _receiver := { _env := some env, _ref := some h.receiverRefHandle,
                                 _suppressDestruct := false },
                  _callback := { _env := some env, _ref := some h.callbackRefHandle,
                                 _suppressDestruct := false },
                  _error := ("") } := by
  refine ⟨?_, ?_, ?_⟩ <;>
    simp [AsyncWorker.construct, AsyncWorker.construct1, Persistent, Reference.New,
      hr, hc, h1, h2, h3]

/-- Witness for C6 at the sample (all-ok) construction host responses. -/
theorem C6_persistent_captures_witness :
    (AsyncWorker.construct 0 sampleCtorHost).2 =
      [AbiCall.napi_create_reference 20 1, AbiCall.napi_create_reference 21 1,
       AbiCall.napi_create_async_work] ∧
    (AsyncWorker.construct1 0 5 sampleCtorHost).2 =
      [AbiCall.napi_create_object, AbiCall.napi_create_reference 5 1,
       AbiCall.napi_create_reference 21 1, AbiCall.napi_create_async_work] ∧
    (AsyncWorker.construct 0 sampleCtorHost).1 =
      Except.ok { _env := some 0, _work := some sampleCtorHost.workHandle,
                  _receiver := { _env := some 0, _ref := some sampleCtorHost.receiverRefHandle,
                                 _suppressDestruct := false },
                  _callback := { _env := some 0, _ref := some sampleCtorHost.callbackRefHandle,
                                 _suppressDestruct := false },
                  _error := ("") } :=
  C6_persistent_captures 0 5 20 21 sampleCtorHost rfl rfl rfl rfl rfl

/-- The worker a move step nulls. -/
theorem moveStep_apply_i {n : Nat} (f : Fin n → AsyncWorker) (i j : Fin n) :
    moveStep f i j i = (AsyncWorker.moveAssign (f j) (f i)).2.1 :=
  Function.update_same i _ _

/-- The worker a move step assigns into (when distinct from the source). -/
theorem moveStep_apply_j {n : Nat} (f : Fin n → AsyncWorker) (i j : Fin n)
    (hij : j ≠ i) : moveStep f i j j = (AsyncWorker.moveAssign (f j) (f i)).1 := by
  unfold moveStep
  rw [Function.update_noteq hij, Function.update_same]

/-- A worker a move step does not touch. -/
theorem moveStep_apply_other {n : Nat} (f : Fin n → AsyncWorker) (i j k : Fin n)
    (hki : k ≠ i) (hkj : k ≠ j) : moveStep f i j k = f k := by
  unfold moveStep
  rw [Function.update_noteq hki, Function.update_noteq hkj]

/-- After a move step, the moved-from slot holds no work entry, so a holder
of `w` is never the moved-from slot. -/
theorem moveStep_holder_ne {n : Nat} (f : Fin n → AsyncWorker) (i j : Fin n)
    (w : Nat) (k : Fin n) (hk : (moveStep f i j k)._work = some w) : k ≠ i := by
  intro hkeq
  subst hkeq
  rw [moveStep_apply_i] at hk
  simp [AsyncWorker.moveAssign] at hk

/-- A move step never increases the number of workers holding a given
work-queue entry. -/
theorem countHolders_moveStep_le {n : Nat} (f : Fin n → AsyncWorker) (i j : Fin n)
    (w : Nat) : countHolders w (moveStep f i j) ≤ countHolders w f := by
  classical
  unfold countHolders
  apply Finset.card_le_card_of_injOn (fun k => if k = j then i else k)
  · intro k hk
    rw [Finset.mem_filter] at hk
    obtain ⟨-, hk⟩ := hk
    have hki : k ≠ i := moveStep_holder_ne f i j w k hk
    rw [Finset.mem_filter]
    refine ⟨Finset.mem_univ _, ?_⟩
    by_cases hkj : k = j
    · subst hkj
      rw [if_pos rfl]
      rw [moveStep_apply_j f i k hki] at hk
      simpa [AsyncWorker.moveAssign] using hk
    · rw [if_neg hkj]
      rw [moveStep_apply_other f i j k hki hkj] at hk
      exact hk
  · intro a ha b hb hab
    rw [Finset.mem_coe, Finset.mem_filter] at ha hb
    have hai : a ≠ i := moveStep_holder_ne f i j w a ha.2
    have hbi : b ≠ i := moveStep_holder_ne f i j w b hb.2
    by_cases haj : a = j <;> by_cases hbj : b = j <;>
      simp only [haj, hbj, if_pos, if_neg, if_true, reduceIte] at hab
    · rw [haj, hbj]
    · exact absurd hab.symm hbi
    · exact absurd hab hai
    · exact hab

/-- A sequence of moves never increases the number of holders of a
work-queue entry. -/
theorem countHolders_applyMoves_le {n : Nat} (moves : List (Fin n × Fin n))
    (f : Fin n → AsyncWorker) (w : Nat) :
    countHolders w (applyMoves f moves) ≤ countHolders w f := by
  induction moves generalizing f with
  | nil => exact Nat.le_refl _
  | cons p ps ih =>
    exact Nat.le_trans (ih (moveStep f p.1 p.2)) (countHolders_moveStep_le f p.1 p.2 w)

/-- Destroying every worker of a family deletes a work-queue entry once per
holder of that entry. -/
theorem totalWorkDeletes_eq_countHolders {n : Nat} (w : Nat) (f : Fin n → AsyncWorker) :
    totalWorkDeletes w f = countHolders w f := by
  classical
  unfold totalWorkDeletes countHolders
  rw [Finset.card_filter]
  apply Finset.sum_congr rfl
  intro k _
  rcases hw : (f k)._work with _ | w2
  · simp [AsyncWorker.destructWorkCalls, hw]
  · by_cases hww : w2 = w
    · subst hww
      simp [AsyncWorker.destructWorkCalls, hw]
    · simp [AsyncWorker.destructWorkCalls, hw, List.count_cons, List.count_nil, hww]

/-- C10: after move construction or move assignment the moved-from unit's
execution-context and work-queue-entry fields are null and its destructor
performs no work-queue teardown; consequently, starting from a family in
which a given work-queue entry is held by at most one unit, any sequence of
moves leaves it held by at most one unit, and destroying every unit deletes
that entry at most once. -/
theorem C10_moves_no_double_delete {n : Nat} (w : Nat) (f : Fin n → AsyncWorker)
    (moves : List (Fin n × Fin n)) (hinit : countHolders w f ≤ 1) :
    (∀ other : AsyncWorker,
      (AsyncWorker.moveCtor other).2._env = none ∧
      (AsyncWorker.moveCtor other).2._work = none ∧
      AsyncWorker.destructWorkCalls (AsyncWorker.moveCtor other).2 = [] ∧
      ∀ self : AsyncWorker,
        (AsyncWorker.moveAssign self other).2.1._env = none ∧
        (AsyncWorker.moveAssign self other).2.1._work = none ∧
        AsyncWorker.destructWorkCalls (AsyncWorker.moveAssign self other).2.1 = []) ∧
    countHolders w (applyMoves f moves) ≤ 1 ∧
    totalWorkDeletes w (applyMoves f moves) ≤ 1 := by
  refine ⟨fun other => ⟨rfl, rfl, rfl, fun self => ⟨rfl, rfl, rfl⟩⟩, ?_, ?_⟩
  · exact Nat.le_trans (countHolders_applyMoves_le moves f w) hinit
  · rw [totalWorkDeletes_eq_countHolders]
    exact Nat.le_trans (countHolders_applyMoves_le moves f w) hinit

/-- Witness for C10: a family of two workers, slot 0 holding work entry 7,
that entry moved into slot 1. -/
theorem C10_moves_no_double_delete_witness :
    (∀ other : AsyncWorker,
      (AsyncWorker.moveCtor other).2._env = none ∧
      (AsyncWorker.moveCtor other).2._work = none ∧
      AsyncWorker.destructWorkCalls (AsyncWorker.moveCtor other).2 = [] ∧
      ∀ self : AsyncWorker,
        (AsyncWorker.moveAssign self other).2.1._env = none ∧
        (AsyncWorker.moveAssign self other).2.1._work = none ∧
        AsyncWorker.destructWorkCalls (AsyncWorker.moveAssign self other).2.1 = []) ∧
    countHolders 7 (applyMoves sampleFamily [((0 : Fin 2), (1 : Fin 2))]) ≤ 1 ∧
    totalWorkDeletes 7 (applyMoves sampleFamily [((0 : Fin 2), (1 : Fin 2))]) ≤ 1 :=
  C10_moves_no_double_delete 7 sampleFamily [((0 : Fin 2), (1 : Fin 2))] (by decide)

end Napi
